import Mathlib

/-!
Verification development for the DONGBOT LINE-bot service.

This file is a shallow embedding of the two Python sources of the
repository, `src/app.py` (the live service) and `src/db.py` (the legacy
persistence helper), restricted to the parts the verified properties
touch: signal-pool loading, the retrying signal-combo generator, the
typed-input field parser, the risk scorer, the per-day usage quota, the
analysis-log dedup store, and the text-message dispatch of
`handle_message`.

Modelling conventions:
* The Supabase tables (`members`, `usage_logs`, `analysis_logs`,
  `signal_stats`) and the in-process `LATEST_SIGNALS` dict are one
  explicit `AppState` record threaded through the handler.  The
  `member_preferences` upsert and the `code` column of `members` are
  write-only in the source and are not modelled.
* `usage_logs` rows are keyed by user for the fixed current day; the
  UTC+8 day string itself is irrelevant to the properties and is not
  modelled.
* Randomness (`random.sample` / `random.choice` / `random.randint`) is
  an oracle `Nat → Combo` giving the raw sample drawn at each attempt of
  the generator's retry loop; soundness of a raw sample (what the random
  primitives guarantee) is the explicit predicate `SampleOk`.
* The SHA-256 fingerprint is an opaque parameter `hash : String → String`
  of the environment; no property here depends on the hash algorithm,
  only on equality of hashes of equal strings.
* A raised exception of the backend call inside `get_usage_today` (which
  the source catches, returning 0) is the flag `usageReadFails`; a raised
  exception reaching the blanket `except Exception` of `handle_message`
  (which swallows it without replying) is the outcome `Outcome.attrError`.
* Python `float` values that occur here are decimal literals; truncation
  `int(float(s))` is modelled exactly as the digits before the dot.
-/

namespace DongBot

/-! ### Python-style string and number helpers -/

/-- Numeric value of a list of decimal digit characters, most significant
first; the empty list gives 0 (used only under a non-emptiness guard). -/
def natOfDigits (cs : List Char) : Nat :=
  cs.foldl (fun n c => n * 10 + (c.toNat - 48)) 0

/-- Whitespace characters stripped by Python `str.strip()` (the ASCII
ones; exotic Unicode whitespace does not occur in this service). -/
def isPySpace (c : Char) : Bool :=
  c == ' ' || c == '\t' || c == '\n' || c == '\r' || c == '\x0b' || c == '\x0c'

/-- Python `str.strip()` on a character list. -/
def trimChars (cs : List Char) : List Char :=
  ((cs.dropWhile isPySpace).reverse.dropWhile isPySpace).reverse

/-- Python `str.strip()`. -/
def pyStrip (s : String) : String :=
  ⟨trimChars s.data⟩

/-- Python `s.split(sep)` for a one-character separator (every `split` in
the source uses a one-character separator). -/
def splitOnChar (sep : Char) : List Char → List (List Char)
  | [] => [[]]
  | c :: t =>
    let r := splitOnChar sep t
    if c == sep then [] :: r
    else
      match r with
      | [] => [[c]]
      | h :: t2 => (c :: h) :: t2

/-- Python `s.split(sep, 1)` preceded by the `sep in s` test: the parts
before and after the first separator, or `none` when the separator does
not occur. -/
def splitFirst (sep : Char) : List Char → Option (List Char × List Char)
  | [] => none
  | c :: t =>
    if c == sep then some ([], t)
    else
      match splitFirst sep t with
      | none => none
      | some (a, b) => some (c :: a, b)

/-- Characters kept by `re.sub(r'[^\d]', '', s)`. -/
def filterDigits (s : String) : String :=
  ⟨s.data.filter Char.isDigit⟩

/-- Characters kept by `re.sub(r'[^\d\.]', '', s)`. -/
def filterFloatChars (s : String) : String :=
  ⟨s.data.filter (fun c => c.isDigit || c == '.')⟩

/-- Python `int(s)` applied to an all-digit string (the argument has been
filtered by `filterDigits`): fails exactly on the empty string. -/
def pyIntDigits (s : String) : Option Nat :=
  if s.data.isEmpty then none else some (natOfDigits s.data)

/-- Python `int(float(s))` applied to a string of digits and dots (the
argument has been filtered by `filterFloatChars`): `float` succeeds when
the string holds at least one digit and at most one dot, and truncation
of the non-negative result keeps the digits before the dot. -/
def pyFloatTruncDigits (s : String) : Option Nat :=
  if s.data.any Char.isDigit = true ∧ (s.data.filter (fun c => c == '.')).length ≤ 1 then
    some (natOfDigits (s.data.takeWhile (fun c => c ≠ '.')))
  else none

/-- Python `int(s)` on an arbitrary string (used on the `max` part of a
`SIGNALS_POOL` item): surrounding whitespace is ignored and an optional
sign precedes a non-empty run of digits. -/
def pyIntOfString (s : String) : Option Int :=
  match trimChars s.data with
  | [] => none
  | '-' :: ds => if ds ≠ [] ∧ ds.all Char.isDigit then some (-(natOfDigits ds : Int)) else none
  | '+' :: ds => if ds ≠ [] ∧ ds.all Char.isDigit then some ((natOfDigits ds : Int)) else none
  | ds => if ds.all Char.isDigit then some ((natOfDigits ds : Int)) else none

/-- Read of a Python dict built by repeated assignment, `d.get(k, dflt)`:
the last binding of the key wins. -/
def lookupLast (m : List (String × String)) (k dflt : String) : String :=
  match m.reverse.find? (fun p => p.1 == k) with
  | some p => p.2
  | none => dflt

/-- Bool test matching a pattern at the head of a character list. -/
def leadMatch : List Char → List Char → Bool
  | [], _ => true
  | _ :: _, [] => false
  | a :: pa, b :: sb => a == b && leadMatch pa sb

/-- Bool substring test on character lists (Python `pat in s`). -/
def holdsSub (pat : List Char) : List Char → Bool
  | [] => pat.isEmpty
  | c :: t => leadMatch pat (c :: t) || holdsSub pat t

/-- Python substring containment `pat in s`. -/
def strContains (s pat : String) : Bool :=
  holdsSub pat.data s.data

/-! ### Signal pool (`load_signals_pool`, app.py lines 100-120) -/

/-- Literal fallback pool of `load_signals_pool`. -/
def DEFAULT_SIGNALS_POOL : List (String × Int) :=
  [("眼睛", 7), ("刀子", 7), ("弓箭", 7), ("蛇", 7),
   ("紅寶石", 7), ("藍寶石", 7), ("黃寶石", 7), ("綠寶石", 7), ("紫寶石", 7),
   ("聖甲蟲", 3)]

/-- Parsing of the `SIGNALS_POOL` environment string: split on commas,
keep the items holding a colon, strip the name, `int()`-parse everything
after the first colon, and silently skip items whose `int()` fails. -/
def parsePoolItems (envStr : String) : List (String × Int) :=
  (splitOnChar ',' envStr.data).filterMap (fun item =>
    match splitFirst ':' item with
    | none => none
    | some (name, maxn) =>
      match pyIntOfString ⟨maxn⟩ with
      | some n => some (⟨trimChars name⟩, n)
      | none => none)

/-- The `load_signals_pool` function of app.py: the parsed environment
pool when the string is non-empty and yields at least one item, else the
literal fallback. -/
def load_signals_pool (envStr : String) : List (String × Int) :=
  if envStr ≠ "" then
    let pool := parsePoolItems envStr
    if pool ≠ [] then pool else DEFAULT_SIGNALS_POOL
  else DEFAULT_SIGNALS_POOL

/-! ### Signal combo generator (app.py lines 373-386) -/

/-- One generated signal combo: (signal name, quantity) pairs. -/
abbrev Combo := List (String × Int)

/-- Total quantity of a combo. -/
def comboSum (c : Combo) : Int :=
  (c.map (fun p => p.2)).sum

/-- Retry loop of the combo generator.  The Python loop increments
`attempts` before sampling and accepts the current sample as soon as its
total is at most 12 or more than 30 attempts were made, so attempt 31 is
always accepted; with fuel 31 and start attempt 1 this function is an
exact rendering of the (always terminating) `while True` loop. -/
def genLoop (o : Nat → Combo) : Nat → Nat → Combo
  | 0, att => o att
  | fuel + 1, att =>
    let c := o att
    if comboSum c ≤ 12 ∨ att > 30 then c else genLoop o fuel (att + 1)

/-- One full run of the generator's retry loop for one combo. -/
def genCombo (o : Nat → Combo) : Combo :=
  genLoop o 31 1

/-- Soundness of one raw sample, exactly what
`random.sample(SIGNALS_POOL, k=random.choice([2, 3]))` followed by
`random.randint(1, s[1])` guarantees: 2 or 3 entries, pairwise-distinct
names, and every entry carrying a pool name with a quantity between 1 and
that name's cap. -/
def SampleOk (pool : List (String × Int)) (c : Combo) : Prop :=
  (c.length = 2 ∨ c.length = 3) ∧
  (c.map (fun p => p.1)).Nodup ∧
  ∀ p ∈ c, ∃ e ∈ pool, e.1 = p.1 ∧ 1 ≤ p.2 ∧ p.2 ≤ e.2

instance (pool : List (String × Int)) (c : Combo) : Decidable (SampleOk pool c) := by
  unfold SampleOk; infer_instance

/-! ### Risk scoring (app.py lines 418-443) -/

/-- The nine numeric thresholds, environment-overridable in the source;
the literal defaults are `defaultThresholds`. -/
structure Thresholds where
  notOpenHigh : Int
  notOpenMed : Int
  notOpenLow : Int
  rtpHigh : Int
  rtpMed : Int
  rtpLow : Int
  betsHigh : Int
  betsLow : Int
deriving Repr, DecidableEq

/-- Literal defaults of the threshold environment variables. -/
def defaultThresholds : Thresholds :=
  { notOpenHigh := 250, notOpenMed := 150, notOpenLow := 50,
    rtpHigh := 120, rtpMed := 110, rtpLow := 90,
    betsHigh := 80000, betsLow := 30000 }

/-- First if/elif statement of the score accumulation: the spins bands
applied to the running score. -/
def scoreSpins (t : Thresholds) (notOpen s : Int) : Int :=
  if notOpen > t.notOpenHigh then s + 2
  else if notOpen > t.notOpenMed then s + 1
  else if notOpen < t.notOpenLow then s - 1
  else s

/-- Second if/elif statement: the RTP bands applied to the running score. -/
def scoreRtp (t : Thresholds) (rtpToday s : Int) : Int :=
  if rtpToday > t.rtpHigh then s + 2
  else if rtpToday > t.rtpMed then s + 1
  else if rtpToday < t.rtpLow then s - 1
  else s

/-- Third if/elif statement: the bets bands applied to the running score. -/
def scoreBets (t : Thresholds) (betsToday s : Int) : Int :=
  if betsToday ≥ t.betsHigh then s - 1
  else if betsToday < t.betsLow then s + 1
  else s

/-- The sequential risk-score accumulation of `fake_human_like_reply`:
`risk_score` starts at 0 and the three if/elif statements update it in
order. -/
def risk_score (t : Thresholds) (notOpen rtpToday betsToday : Int) : Int :=
  scoreBets t betsToday (scoreRtp t rtpToday (scoreSpins t notOpen 0))

/-- Tier classification of the score: the (risk_level, strategy, advice)
triple chosen by the if/elif/else chain of the source. -/
def risk_level_of (score : Int) : String × String × String :=
  if score ≥ 3 then
    ("🚨 高風險", "建議僅觀察，暫不進場。", "風險偏高，可能已爆分或被吃分過。")
  else if score ≥ 1 then
    ("⚠️ 中風險", "可小額觀察，視情況再加注。", "回分條件一般，適合保守打法。")
  else
    ("✅ 低風險", "建議可進場觀察，適合穩定操作。", "房間數據良好，可考慮逐步提高注額。")

/-! ### Typed-input parsing of `fake_human_like_reply` (app.py lines 355-371) -/

/-- Line splitting of `fake_human_like_reply`: split the message on
newlines, keep the lines holding a colon, split each on its first colon
and strip both parts. -/
def parseLines (msg : String) : List (String × String) :=
  (splitOnChar '\n' msg.data).filterMap (fun raw =>
    match splitFirst ':' raw with
    | none => none
    | some (k, v) => some (⟨trimChars k⟩, ⟨trimChars v⟩))

/-- Numeric-field conversion of `fake_human_like_reply`: each recognized
label's value (default `"0"` when the label is absent) is regex-cleaned
and `int()`- or `int(float())`-converted; any conversion failure fails
the whole parse. -/
def fhlParse (msg : String) : Option (Nat × Nat × Nat) :=
  let fields := parseLines msg
  match pyIntDigits (filterDigits (lookupLast fields "未開轉數" "0")),
        pyFloatTruncDigits (filterFloatChars (lookupLast fields "今日RTP%數" "0")),
        pyFloatTruncDigits (filterFloatChars (lookupLast fields "今日總下注額" "0")) with
  | some a, some b, some c => some (a, b, c)
  | _, _, _ => none

/-! ### Data model and Supabase helper functions of app.py -/

/-- One `members` row, as `handle_message` reads it: the `status` column
and the `member_level` column (`none` for a NULL / absent level).  The
write-only `code`, timestamp and remark columns are not modelled. -/
structure Member where
  status : String
  memberLevel : Option String
deriving Repr, DecidableEq

/-- The persistent tables owned by the service plus the in-process
`LATEST_SIGNALS` dict, keyed by the platform user id.  `usage` holds the
`used_count` of each user's `usage_logs` row for the current day;
`analysisLogs` holds (user, msg_hash, reply) rows. -/
structure AppState where
  members : List (String × Member)
  usage : List (String × Nat)
  analysisLogs : List (String × String × String)
  signalStats : List (String × Int)
  latestSignals : List (String × List Combo)
deriving Repr, DecidableEq

/-- Process environment of one handler run: the fingerprint function
(SHA-256 in the source, opaque here), the risk thresholds, the sampling
oracles of the two generated combos, the `AUTO_SAVE_SIGNALS` flag, and
whether the backend read inside `get_usage_today` raises. -/
structure Env where
  hash : String → String
  thresholds : Thresholds
  o1 : Nat → Combo
  o2 : Nat → Combo
  autoSave : Bool
  usageReadFails : Bool

/-- The `get_member` helper of app.py: the row of the user, if any
(`maybe_single` on `line_user_id`). -/
def get_member (st : AppState) (uid : String) : Option Member :=
  (st.members.find? (fun p => p.1 == uid)).map (fun p => p.2)

/-- The `add_member` helper of app.py: insert a new pending row. -/
def add_member (st : AppState) (uid : String) : AppState :=
  { st with members := st.members ++ [(uid, { status := "pending", memberLevel := none })] }

/-- The `get_usage_today` helper of app.py: the `used_count` of today's
row, 0 when no row exists, and 0 when the backend call raises (the
`except` branch of the source). -/
def get_usage_today (env : Env) (st : AppState) (uid : String) : Nat :=
  if env.usageReadFails then 0
  else
    match st.usage.find? (fun p => p.1 == uid) with
    | some p => p.2
    | none => 0

/-- The `increment_usage` helper of app.py: re-reads today's count and
inserts a first row or updates the existing row. -/
def increment_usage (env : Env) (st : AppState) (uid : String) : AppState :=
  let used := get_usage_today env st uid
  if used == 0 then
    { st with usage := st.usage ++ [(uid, 1)] }
  else
    { st with usage := st.usage.map (fun p => if p.1 == uid then (p.1, used + 1) else p) }

/-- The `get_previous_reply` helper of app.py: the stored reply of the
`analysis_logs` row matching (user, msg_hash), if any. -/
def get_previous_reply (st : AppState) (uid msgHash : String) : Option String :=
  (st.analysisLogs.find? (fun r => r.1 == uid && r.2.1 == msgHash)).map (fun r => r.2.2)

/-- The `save_analysis_log` helper of app.py: insert the new row. -/
def save_analysis_log (st : AppState) (uid msgHash reply : String) : AppState :=
  { st with analysisLogs := st.analysisLogs ++ [(uid, msgHash, reply)] }

/-- Flattening of `save_signal_stats` for its list-of-combos argument:
every (name, quantity) pair of every combo, in order. -/
def flattenCombos (cs : List Combo) : List (String × Int) :=
  cs.flatten

/-- Update of the `LATEST_SIGNALS` dict entry of a user. -/
def setLatest (st : AppState) (uid : String) (cs : List Combo) : AppState :=
  { st with latestSignals :=
      if st.latestSignals.any (fun p => p.1 == uid) then
        st.latestSignals.map (fun p => if p.1 == uid then (p.1, cs) else p)
      else
        st.latestSignals ++ [(uid, cs)] }

/-! ### `fake_human_like_reply` (app.py lines 351-464) -/

/-- Fixed user-facing failure message of `fake_human_like_reply` for an
unparsable submission. -/
def analysisFailMessage : String :=
  "❌ 分析失敗，請確認輸入格式及數值正確。\n\n範例：\n未開轉數 : 120\n今日RTP%數 : 105.38\n今日總下注額 : 45000.55"

/-- Rendering of one combo's lines. -/
def comboLines (c : Combo) : String :=
  String.intercalate "\n" (c.map (fun p => p.1 ++ "：" ++ toString p.2 ++ "顆"))

/-- The `fake_human_like_reply` function: parse the three numeric fields
(any conversion failure yields the fixed failure message and no combos),
generate the two signal combos through the retry loop, score the risk and
assemble the reply.  The `LATEST_SIGNALS` / `AUTO_SAVE_SIGNALS` side
effects of the source are applied by the caller (`recordSignals`); the
fire-and-forget `update_member_preference` upsert is not modelled. -/
def fake_human_like_reply (env : Env) (msg : String) : String × Option (Combo × Combo) :=
  match fhlParse msg with
  | none => (analysisFailMessage, none)
  | some (notOpen, rtpToday, betsToday) =>
    let comboA := genCombo env.o1
    let comboB := genCombo env.o2
    let sumA := comboSum comboA
    let sumB := comboSum comboB
    let priority :=
      if sumA > sumB then "組合 A 優先（顆數較多）"
      else if sumB > sumA then "組合 B 優先（顆數較多）"
      else "兩組同等優先（顆數相同）"
    let score := risk_score env.thresholds (notOpen : Int) (rtpToday : Int) (betsToday : Int)
    let tier := risk_level_of score
    let signalsBlock :=
      "組合 A（總顆數：" ++ toString sumA ++ "）：\n" ++ comboLines comboA ++ "\n\n" ++
      "組合 B（總顆數：" ++ toString sumB ++ "）：\n" ++ comboLines comboB
    let reply :=
      "📊 房間分析結果如下：\n" ++
      "風險等級：" ++ tier.1 ++ "\n" ++
      "建議策略：" ++ tier.2.1 ++ "\n" ++
      "說明：" ++ tier.2.2 ++ "\n\n" ++
      "🔎 推薦訊號（兩組）：\n" ++ signalsBlock ++ "\n\n" ++
      "➡️ 優先建議：" ++ priority ++ "\n\n" ++
      "若滿意此組合並想儲存，請傳送「儲存訊號」。\n" ++
      "✨ 若需進一步打法策略，請聯絡阿東超人：LINE ID adong8989"
    (reply, some (comboA, comboB))

/-- Side effects of a run of `fake_human_like_reply` that produced
combos: store them in `LATEST_SIGNALS` and, when `AUTO_SAVE_SIGNALS` is
set, append them to `signal_stats`. -/
def recordSignals (env : Env) (st : AppState) (uid : String) :
    Option (Combo × Combo) → AppState
  | none => st
  | some (a, b) =>
    let st1 := setLatest st uid [a, b]
    if env.autoSave then
      { st1 with signalStats := st1.signalStats ++ flattenCombos [a, b] }
    else st1

/-! ### The analysis pipeline of `handle_message` (app.py lines 612-639) -/

/-- Tier string of app.py line 624: the stored `member_level` (defaulted
to `"normal"`) when the member exists and is approved, else `"normal"`. -/
def levelOf (st : AppState) (uid : String) : String :=
  match get_member st uid with
  | some m => if m.status == "approved" then m.memberLevel.getD "normal" else "normal"
  | none => "normal"

/-- Daily limit of app.py line 625: 50 for level `"vip"`, else 15. -/
def limitOf (st : AppState) (uid : String) : Nat :=
  if levelOf st uid == "vip" then 50 else 15

/-- Bool form of `member_data and member_data.get("status") == "approved"`. -/
def isApprovedB (st : AppState) (uid : String) : Bool :=
  match get_member st uid with
  | some m => m.status == "approved"
  | none => false

/-- Outcome of the analysis pipeline, one constructor per branch of the
source: duplicate echo, quota refusal, not-approved refusal, the
`AttributeError` raised by `member_data.get` when `member_data` is `None`
(swallowed by the blanket handler, so no reply is sent), and a completed
analysis carrying the full sent reply. -/
inductive Outcome where
  | duplicate (prev : String)
  | quotaExceeded (limit : Nat) (level : String)
  | notApproved (status : String)
  | attrError
  | analyzed (reply : String)
deriving Repr, DecidableEq

/-- Notice prefixed to a duplicate submission's stored reply. -/
def alreadyAnalyzedPrefix : String :=
  "此資料已分析過（避免重複分析）：\n\n"

/-- Suffix appended to a fresh analysis reply after the usage increment. -/
def doneSuffix (limit usedAfter : Nat) : String :=
  "\n\n✅ 分析完成（今日剩餘 " ++ toString ((limit : Int) - (usedAfter : Int)) ++
  " / " ++ toString limit ++ " 次）"

/-- The analysis pipeline of `handle_message` for a submission text
(typed or OCR-extracted): dedup lookup first, then the quota check, then
the approval check, then the fresh analysis with its log write, usage
increment and re-read. -/
def analysisFlow (env : Env) (st : AppState) (uid msg : String) : Outcome × AppState :=
  let msgHash := env.hash msg
  match get_previous_reply st uid msgHash with
  | some prev => (Outcome.duplicate prev, st)
  | none =>
    let level := levelOf st uid
    let limit := limitOf st uid
    let used := get_usage_today env st uid
    if used ≥ limit then
      (Outcome.quotaExceeded limit level, st)
    else if isApprovedB st uid = false then
      match get_member st uid with
      | none => (Outcome.attrError, st)
      | some m => (Outcome.notApproved m.status, st)
    else
      let fr := fake_human_like_reply env msg
      let st1 := recordSignals env st uid fr.2
      let st2 := save_analysis_log st1 uid msgHash fr.1
      let st3 := increment_usage env st2 uid
      let usedAfter := get_usage_today env st3 uid
      (Outcome.analyzed (fr.1 ++ doneSuffix limit usedAfter), st3)

/-- The reply text each outcome sends, `none` when the blanket exception
handler swallows the `AttributeError` and no reply is sent at all. -/
def render : Outcome → Option String
  | Outcome.duplicate prev => some (alreadyAnalyzedPrefix ++ prev)
  | Outcome.quotaExceeded limit level =>
      some ("⚠️ 今日已達使用上限（" ++ toString limit ++ "次，您的級別是 " ++ level ++
            "），請明日再試或升級 VIP。")
  | Outcome.notApproved status =>
      some ("⚠️ 您的會員尚未通過審核（目前狀態：" ++ status ++
            "）。\n請加管理員 LINE: adong8989 申請開通。")
  | Outcome.attrError => none
  | Outcome.analyzed reply => some reply

/-- The fixed help message of the `使用說明` command. -/
def usageHelpMsg : String :=
  "📘 使用說明：\n請依下列格式輸入 RTP 資訊（可直接傳送包含這些資訊的圖片）：\n\n未開轉數 : 120\n今日RTP%數 : 105.38\n今日總下注額 : 45000.55\n\n⚠️ 注意事項：\n1️⃣ 分析結果分為高 / 中 / 低風險\n2️⃣ 每日使用次數：normal 15 次，vip 50 次\n3️⃣ 若要儲存剛剛系統產生的訊號，請傳「儲存訊號」\n4️⃣ 圖片分析功能已開啟，可直接傳送遊戲畫面。"

/-- Step 3 guard of `handle_message`: the text looks like analysis input. -/
def isAnalysisRequest (msg : String) : Bool :=
  !(msg == "") && (strContains msg "RTP" || strContains msg "轉" || strContains msg "注額")

/-- Text-message dispatch of `handle_message` (steps 2-4 of the source):
the five fixed commands, then the analysis pipeline when the text looks
like analysis input, then the generic fallback reply.  The result is the
reply `reply_message` sends (`none` when an uncaught exception reached
the blanket handler) and the new state. -/
def handle_message_text (adminId : String) (env : Env) (st : AppState)
    (uid rawText : String) : Option String × AppState :=
  let msg := pyStrip rawText
  if msg == "我要開通" then
    match get_member st uid with
    | some m =>
      if m.status == "approved" then
        (some "✅ 您已開通完成，歡迎使用選房分析功能。", st)
      else
        (some ("你已申請過囉，請找管理員審核 LINE ID :adong8989。\n目前狀態：" ++ m.status ++
               "，您的 LINE User ID：" ++ uid), st)
    | none =>
      (some ("申請成功！請加管理員 LINE:adong8989 並提供此 user_id：" ++ uid), add_member st uid)
  else if msg == "房間資訊表格" then
    (some "未開轉數 :\n今日RTP%數 :\n今日總下注額 :", st)
  else if msg == "使用說明" then
    (some usageHelpMsg, st)
  else if msg == "儲存訊號" then
    match (st.latestSignals.find? (fun p => p.1 == uid)).map (fun p => p.2) with
    | none =>
      (some "找不到最近產生的訊號，請先送出房間資訊以產生推薦訊號，再傳「儲存訊號」。", st)
    | some cs =>
      (some "✅ 已儲存剛剛的推薦訊號到資料庫。",
       { st with signalStats := st.signalStats ++ flattenCombos cs,
                 latestSignals := st.latestSignals.filter (fun p => !(p.1 == uid)) })
  else if msg == "管理員儲存訊號" then
    if !(adminId == "") && uid == adminId then
      (some ("管理員操作完成，已嘗試儲存 " ++ toString st.latestSignals.length ++
             " 位使用者的推薦訊號。"),
       { st with signalStats :=
                   st.signalStats ++ (st.latestSignals.map (fun p => flattenCombos p.2)).flatten,
                 latestSignals := [] })
    else
      (some "❌ 你不是管理員，無法執行此操作。", st)
  else if isAnalysisRequest msg then
    let r := analysisFlow env st uid msg
    (render r.1, r.2)
  else
    (some "請傳送房間資訊或使用下方快速選單進行操作。", st)

end DongBot

namespace Db

/-- Outcome of the `supabase...execute()` call inside `get_member` of
src/db.py, as the source distinguishes its shapes: a raised exception, a
`None` response, an object with a `data` attribute holding the row (the
row is the selected `status` value, possibly absent), a dict with a
`data` key, or an unexpected format. -/
inductive ExecResult where
  | raised
  | respNone
  | respWithData (d : Option String)
  | respDict (d : Option String)
  | respUnexpected
deriving Repr, DecidableEq

/-- What a call of the legacy helper does from the caller's point of
view: return a value or raise. -/
inductive PyOutcome where
  | returns (v : Option String)
  | raises
deriving Repr, DecidableEq

/-- The `get_member` function of src/db.py.  The function has no
try/except, so a raised backend exception propagates; a `None` response
and an unexpected response format are logged and mapped to `None`; a
response carrying `data` (as attribute or dict key) returns that data. -/
def get_member : ExecResult → PyOutcome
  | ExecResult.raised => PyOutcome.raises
  | ExecResult.respNone => PyOutcome.returns none
  | ExecResult.respWithData d => PyOutcome.returns d
  | ExecResult.respDict d => PyOutcome.returns d
  | ExecResult.respUnexpected => PyOutcome.returns none

end Db

namespace DongBot

/-! ### Spec-side comparison definitions (written from the claim wording,
to be compared with the source-derived definitions above) -/

/-- Spins addend of claim C4: +2 above `NOT_OPEN_HIGH`, else +1 above
`NOT_OPEN_MED`, else -1 below `NOT_OPEN_LOW`, else 0. -/
def spinsTermClaimed (t : Thresholds) (x : Int) : Int :=
  if x > t.notOpenHigh then 2
  else if x > t.notOpenMed then 1
  else if x < t.notOpenLow then -1
  else 0

/-- RTP addend of claim C4: +2 above `RTP_HIGH`, else +1 above `RTP_MED`,
else -1 below `RTP_LOW`, else 0. -/
def rtpTermClaimed (t : Thresholds) (y : Int) : Int :=
  if y > t.rtpHigh then 2
  else if y > t.rtpMed then 1
  else if y < t.rtpLow then -1
  else 0

/-- Bets addend of claim C4: -1 at or above `BETS_HIGH`, else +1 below
`BETS_LOW`, else 0. -/
def betsTermClaimed (t : Thresholds) (z : Int) : Int :=
  if z ≥ t.betsHigh then -1
  else if z < t.betsLow then 1
  else 0

/-- The 14-entry fallback pool of claim C8, copied from the spec's words. -/
def specSignalPoolClaimed : List (String × Int) :=
  [("眼睛", 7), ("刀子", 7), ("弓箭", 7), ("蛇", 7),
   ("紅寶石", 7), ("藍寶石", 7), ("黃寶石", 7), ("綠寶石", 7), ("紫寶石", 7),
   ("聖甲蟲", 3), ("綠倍數球", 1), ("藍倍數球", 1), ("紫倍數球", 1), ("紅倍數球", 1)]

/-! ### Concrete fixtures for witnesses and counterexamples -/

/-- Sampling oracle whose every raw sample is sound and under the cap. -/
def okOracle : Nat → Combo := fun _ => [("眼睛", 1), ("刀子", 1)]

/-- Sampling oracle whose every raw sample is a sound sample of the
default pool but totals 14 > 12. -/
def overCapOracle : Nat → Combo := fun _ => [("眼睛", 7), ("刀子", 7)]

/-- Concrete witness environment: identity fingerprint, default
thresholds, small sampling oracles, auto-save off, healthy backend. -/
def envW : Env :=
  { hash := fun s => s, thresholds := defaultThresholds,
    o1 := okOracle, o2 := fun _ => [("弓箭", 2), ("蛇", 1)],
    autoSave := false, usageReadFails := false }

/-- `envW` with the backend read inside `get_usage_today` raising. -/
def envFail : Env :=
  { envW with usageReadFails := true }

/-- Well-formed typed submission used by witnesses. -/
def msgW : String := "未開轉數 : 120\n今日RTP%數 : 105.38\n今日總下注額 : 45000.55"

/-- Submission whose spin-count value has no digits, so `int()` fails. -/
def badMsgW : String := "未開轉數 : abc\n今日RTP%數 : 105\n今日總下注額 : 45000"

/-- Typed submission of a user with no `members` row. -/
def msgNoRow : String := "未開轉數 : 10\n今日RTP%數 : 50\n今日總下注額 : 1000"

/-- An approved normal-tier member with no usage and no logs. -/
def stApproved : AppState :=
  { members := [("U1", { status := "approved", memberLevel := some "normal" })],
    usage := [], analysisLogs := [], signalStats := [], latestSignals := [] }

/-- An approved VIP member who has used all 50 analyses today. -/
def stQuotaW : AppState :=
  { members := [("Uvip", { status := "approved", memberLevel := some "vip" })],
    usage := [("Uvip", 50)], analysisLogs := [], signalStats := [], latestSignals := [] }

/-- The configured admin, stored as an approved normal-tier member, with
20 analyses used today. -/
def stAdmin : AppState :=
  { members := [("Uadmin", { status := "approved", memberLevel := some "normal" })],
    usage := [("Uadmin", 20)], analysisLogs := [], signalStats := [], latestSignals := [] }

/-- Completely empty state: no members, no usage, no logs. -/
def stEmptyW : AppState :=
  { members := [], usage := [], analysisLogs := [], signalStats := [], latestSignals := [] }

/-- An approved member with 999 analyses already recorded today. -/
def stHeavy : AppState :=
  { members := [("U1", { status := "approved", memberLevel := some "normal" })],
    usage := [("U1", 999)], analysisLogs := [], signalStats := [], latestSignals := [] }

/-- A state holding one user's pending `LATEST_SIGNALS` entry. -/
def stSig : AppState :=
  { members := [], usage := [], analysisLogs := [], signalStats := [("舊", 1)],
    latestSignals := [("U1", [[("眼睛", 2), ("蛇", 1)]])] }

/-! ### Helper lemmas on the generator loop and the pipeline branches -/

/-- Every result of the retry loop is one of the oracle's raw samples. -/
theorem genLoop_mem (o : Nat → Combo) : ∀ fuel att, ∃ n, genLoop o fuel att = o n := by
  intro fuel
  induction fuel with
  | zero => intro att; exact ⟨att, rfl⟩
  | succ f ih =>
    intro att
    simp only [genLoop]
    split
    · exact ⟨att, rfl⟩
    · exact ih (att + 1)

/-- The retry loop returns a sample under the cap, or the attempt-31
sample unchanged. -/
theorem genLoop_cap (o : Nat → Combo) :
    ∀ fuel att, 32 ≤ fuel + att → att ≤ 31 →
      comboSum (genLoop o fuel att) ≤ 12 ∨ genLoop o fuel att = o 31 := by
  intro fuel
  induction fuel with
  | zero => intro att h1 h2; omega
  | succ f ih =>
    intro att h1 h2
    simp only [genLoop]
    split
    · next hc =>
        rcases hc with hc | hc
        · exact Or.inl hc
        · have hat : att = 31 := by omega
          subst hat
          exact Or.inr rfl
    · next hc =>
        have hatt : att ≤ 30 := by
          by_contra hgt
          exact hc (Or.inr (by omega))
        exact ih (att + 1) (by omega) (by omega)

/-- A `find?` over an appended list continues into the suffix when the
first part has no hit. -/
theorem find?_append_of_none {α : Type} (p : α → Bool) (l1 l2 : List α)
    (h : l1.find? p = none) : (l1 ++ l2).find? p = l2.find? p := by
  induction l1 with
  | nil => simp
  | cons a t ih =>
    by_cases hp : p a
    · rw [List.find?_cons_of_pos _ hp] at h
      exact absurd h (by simp)
    · rw [List.find?_cons_of_neg _ (by simp [hp])] at h
      rw [List.cons_append, List.find?_cons_of_neg _ (by simp [hp])]
      exact ih h

/-- `recordSignals` leaves the analysis log untouched. -/
theorem recordSignals_logs (env : Env) (st : AppState) (uid : String)
    (x : Option (Combo × Combo)) :
    (recordSignals env st uid x).analysisLogs = st.analysisLogs := by
  cases x with
  | none => rfl
  | some ab =>
    cases ab with
    | mk a b =>
      simp only [recordSignals, setLatest]
      split <;> rfl

/-- `increment_usage` leaves the analysis log untouched. -/
theorem increment_usage_logs (env : Env) (st : AppState) (uid : String) :
    (increment_usage env st uid).analysisLogs = st.analysisLogs := by
  simp only [increment_usage]
  split <;> rfl

/-- `get_previous_reply` depends only on the analysis log. -/
theorem get_previous_reply_congr (st st' : AppState) (uid h : String)
    (heq : st'.analysisLogs = st.analysisLogs) :
    get_previous_reply st' uid h = get_previous_reply st uid h := by
  unfold get_previous_reply
  rw [heq]

/-- After a fresh `save_analysis_log`, the saved row is found. -/
theorem get_previous_reply_after_save (st : AppState) (uid h r : String)
    (hnone : get_previous_reply st uid h = none) :
    get_previous_reply (save_analysis_log st uid h r) uid h = some r := by
  unfold get_previous_reply at hnone ⊢
  unfold save_analysis_log
  have hf : st.analysisLogs.find? (fun row => row.1 == uid && row.2.1 == h) = none := by
    cases hfind : st.analysisLogs.find? (fun row => row.1 == uid && row.2.1 == h) with
    | none => rfl
    | some row =>
      rw [hfind] at hnone
      simp at hnone
  rw [show (AppState.mk st.members st.usage (st.analysisLogs ++ [(uid, h, r)])
        st.signalStats st.latestSignals).analysisLogs
      = st.analysisLogs ++ [(uid, h, r)] from rfl]
  rw [find?_append_of_none _ _ _ hf]
  simp

/-- Branch lemma: a duplicate lookup short-circuits the pipeline. -/
theorem analysisFlow_duplicate (env : Env) (st : AppState) (uid msg prev : String)
    (h : get_previous_reply st uid (env.hash msg) = some prev) :
    analysisFlow env st uid msg = (Outcome.duplicate prev, st) := by
  simp only [analysisFlow, h]

/-- Branch lemma: a met quota refuses and leaves the state unchanged. -/
theorem analysisFlow_quota (env : Env) (st : AppState) (uid msg : String)
    (hprev : get_previous_reply st uid (env.hash msg) = none)
    (hlim : limitOf st uid ≤ get_usage_today env st uid) :
    analysisFlow env st uid msg =
      (Outcome.quotaExceeded (limitOf st uid) (levelOf st uid), st) := by
  simp only [analysisFlow, hprev]
  rw [if_pos hlim]

/-- Branch lemma: a fresh, approved, under-quota submission runs the full
analysis: signal recording, log write, usage increment, usage re-read. -/
theorem analysisFlow_fresh (env : Env) (st : AppState) (uid msg : String)
    (hprev : get_previous_reply st uid (env.hash msg) = none)
    (happ : isApprovedB st uid = true)
    (hlt : get_usage_today env st uid < limitOf st uid) :
    analysisFlow env st uid msg =
      (Outcome.analyzed
        ((fake_human_like_reply env msg).1 ++
          doneSuffix (limitOf st uid)
            (get_usage_today env
              (increment_usage env
                (save_analysis_log
                  (recordSignals env st uid (fake_human_like_reply env msg).2)
                  uid (env.hash msg) (fake_human_like_reply env msg).1)
                uid)
              uid)),
       increment_usage env
         (save_analysis_log
           (recordSignals env st uid (fake_human_like_reply env msg).2)
           uid (env.hash msg) (fake_human_like_reply env msg).1)
         uid) := by
  simp only [analysisFlow, hprev]
  rw [if_neg (by omega), if_neg (by simp [happ])]

/-! ### Claim theorems -/

/-- C1 (amended): if the user's usage count for the day has reached the
daily limit, a non-duplicate analysis submission is refused with the
quota-exceeded outcome and the state is written to in no way; the daily
limit is 50 for `member_level = "vip"` and 15 otherwise — `analysisFlow`
takes no admin parameter, so the configured admin id gets no special
limit (see the counterexample); and a usage row is written only when the
submission is non-duplicate, the member approved and the quota not yet
met (whether or not the parse succeeds). -/
theorem c1_quota_gate (env : Env) (st : AppState) (uid msg : String) :
    (get_previous_reply st uid (env.hash msg) = none →
      limitOf st uid ≤ get_usage_today env st uid →
      analysisFlow env st uid msg =
        (Outcome.quotaExceeded (limitOf st uid) (levelOf st uid), st)) ∧
    limitOf st uid = (if levelOf st uid = "vip" then 50 else 15) ∧
    ((analysisFlow env st uid msg).2.usage ≠ st.usage →
      get_previous_reply st uid (env.hash msg) = none ∧
      isApprovedB st uid = true ∧
      get_usage_today env st uid < limitOf st uid) := by
  refine ⟨fun hprev hlim => analysisFlow_quota env st uid msg hprev hlim, ?_, ?_⟩
  · unfold limitOf
    by_cases h : levelOf st uid = "vip"
    · rw [if_pos (by simp [h]), if_pos h]
    · rw [if_neg (by simp [h]), if_neg h]
  · intro hch
    by_cases hprev : get_previous_reply st uid (env.hash msg) = none
    · by_cases happ : isApprovedB st uid = true
      · by_cases hlt : get_usage_today env st uid < limitOf st uid
        · exact ⟨hprev, happ, hlt⟩
        · exact absurd (by rw [analysisFlow_quota env st uid msg hprev (by omega)]) hch
      · exfalso
        apply hch
        by_cases hlim : limitOf st uid ≤ get_usage_today env st uid
        · rw [analysisFlow_quota env st uid msg hprev hlim]
        · have hfalse : isApprovedB st uid = false := by
            cases hb : isApprovedB st uid
            · rfl
            · exact absurd hb happ
          simp only [analysisFlow, hprev]
          rw [if_neg (by omega), if_pos hfalse]
          cases get_member st uid <;> rfl
    · obtain ⟨p, hp⟩ := Option.ne_none_iff_exists'.mp hprev
      exact absurd (by rw [analysisFlow_duplicate env st uid msg p hp]) hch

/-- C1 witness: a VIP member with 50 uses today is refused at the
VIP limit with no state change. -/
theorem c1_quota_gate_witness :
    limitOf stQuotaW "Uvip" ≤ get_usage_today envW stQuotaW "Uvip" ∧
    analysisFlow envW stQuotaW "Uvip" msgW =
      (Outcome.quotaExceeded (limitOf stQuotaW "Uvip") (levelOf stQuotaW "Uvip"), stQuotaW) :=
  ⟨by decide, (c1_quota_gate envW stQuotaW "Uvip" msgW).1 (by decide) (by decide)⟩

/-- C1 counterexample: the configured admin id (here the user `Uadmin`,
whatever `ADMIN_LINE_ID` holds — the quota path of `handle_message`
never reads it, which is why `analysisFlow` has no admin parameter), with
a stored `normal` tier and 20 uses today, is refused at limit 15 even
though 20 < 50, so the claim's "the configured admin id always resolves
to the VIP limit (50)" is false on the code. -/
theorem c1_admin_limit_counterexample :
    get_usage_today envW stAdmin "Uadmin" = 20 ∧
    get_usage_today envW stAdmin "Uadmin" < 50 ∧
    analysisFlow envW stAdmin "Uadmin" msgW =
      (Outcome.quotaExceeded 15 "normal", stAdmin) := by
  refine ⟨rfl, by decide, by decide⟩

/-- C2: a submission whose fingerprint matches a stored analysis-log row
of the user is answered with the stored reply verbatim behind the
already-analyzed notice and the state — in particular the usage count —
is untouched (the pipeline returns before the quota check); and after a
fresh successful analysis, replaying the identical submission returns
exactly the stored reply and leaves the post-first-submission state
unchanged. -/
theorem c2_duplicate_replay (env : Env) (st : AppState) (uid msg : String) :
    (∀ prev, get_previous_reply st uid (env.hash msg) = some prev →
      analysisFlow env st uid msg = (Outcome.duplicate prev, st) ∧
      render (Outcome.duplicate prev) = some (alreadyAnalyzedPrefix ++ prev)) ∧
    (get_previous_reply st uid (env.hash msg) = none →
      isApprovedB st uid = true →
      get_usage_today env st uid < limitOf st uid →
      analysisFlow env (analysisFlow env st uid msg).2 uid msg =
        (Outcome.duplicate (fake_human_like_reply env msg).1,
         (analysisFlow env st uid msg).2)) := by
  constructor
  · intro prev hp
    exact ⟨analysisFlow_duplicate env st uid msg prev hp, rfl⟩
  · intro hprev happ hlt
    have hfr := analysisFlow_fresh env st uid msg hprev happ hlt
    have hlook : get_previous_reply (analysisFlow env st uid msg).2 uid (env.hash msg) =
        some (fake_human_like_reply env msg).1 := by
      rw [hfr]
      rw [get_previous_reply_congr
            (save_analysis_log (recordSignals env st uid (fake_human_like_reply env msg).2)
              uid (env.hash msg) (fake_human_like_reply env msg).1)
            _ uid (env.hash msg) (increment_usage_logs env _ uid)]
      apply get_previous_reply_after_save
      rw [get_previous_reply_congr st _ uid (env.hash msg)
            (recordSignals_logs env st uid (fake_human_like_reply env msg).2)]
      exact hprev
    exact analysisFlow_duplicate env _ uid msg _ hlook

/-- C2 witness: a fresh analysis of `msgW` by an approved member followed
by an identical resubmission echoes the stored reply with no further
state change. -/
theorem c2_duplicate_replay_witness :
    get_previous_reply stApproved "U1" (envW.hash msgW) = none ∧
    isApprovedB stApproved "U1" = true ∧
    get_usage_today envW stApproved "U1" < limitOf stApproved "U1" ∧
    analysisFlow envW (analysisFlow envW stApproved "U1" msgW).2 "U1" msgW =
      (Outcome.duplicate (fake_human_like_reply envW msgW).1,
       (analysisFlow envW stApproved "U1" msgW).2) :=
  ⟨by decide, by decide, by decide,
   (c2_duplicate_replay envW stApproved "U1" msgW).2 (by decide) (by decide) (by decide)⟩

/-- C3 (code evaluated at the failing input): an approved, under-quota
member submitting `badMsgW`, whose spin-count value has no digits, gets
the fixed failure message — but the handler still writes the
analysis-log row (storing the failure message as the reply) and still
writes a usage row, and even appends the analysis-complete suffix
reporting one consumed use, contradicting the claim's "no quota is
consumed and no analysis-log row is written". -/
theorem c3_parse_failure_charges_quota :
    fhlParse badMsgW = none ∧
    (fake_human_like_reply envW badMsgW).1 = analysisFailMessage ∧
    analysisFlow envW stApproved "U1" badMsgW =
      (Outcome.analyzed (analysisFailMessage ++ doneSuffix 15 1),
       { stApproved with
           usage := [("U1", 1)],
           analysisLogs := [("U1", badMsgW, analysisFailMessage)] }) := by
  refine ⟨by decide, by decide, by decide⟩

/-- C4: for every threshold configuration and every parsed input triple,
the sequentially accumulated risk score of the source equals the sum of
the three independent band addends the claim describes, and the tier
label is the high-risk one at score ≥ 3, the medium one at 1 ≤ score < 3
and the low one below 1. -/
theorem c4_risk_score_spec (t : Thresholds) (x y z : Int) :
    risk_score t x y z = spinsTermClaimed t x + rtpTermClaimed t y + betsTermClaimed t z ∧
    (3 ≤ risk_score t x y z → (risk_level_of (risk_score t x y z)).1 = "🚨 高風險") ∧
    (1 ≤ risk_score t x y z → risk_score t x y z < 3 →
      (risk_level_of (risk_score t x y z)).1 = "⚠️ 中風險") ∧
    (risk_score t x y z < 1 → (risk_level_of (risk_score t x y z)).1 = "✅ 低風險") := by
  refine ⟨?_, ?_, ?_, ?_⟩
  · have hs : ∀ s, scoreSpins t x s = s + spinsTermClaimed t x := by
      intro s
      unfold scoreSpins spinsTermClaimed
      split_ifs <;> omega
    have hr : ∀ s, scoreRtp t y s = s + rtpTermClaimed t y := by
      intro s
      unfold scoreRtp rtpTermClaimed
      split_ifs <;> omega
    have hb : ∀ s, scoreBets t z s = s + betsTermClaimed t z := by
      intro s
      unfold scoreBets betsTermClaimed
      split_ifs <;> omega
    unfold risk_score
    rw [hs, hr, hb]
    omega
  · intro h
    unfold risk_level_of
    rw [if_pos (show risk_score t x y z ≥ 3 by omega)]
  · intro h1 h2
    unfold risk_level_of
    rw [if_neg (show ¬ risk_score t x y z ≥ 3 by omega),
        if_pos (show risk_score t x y z ≥ 1 by omega)]
  · intro h
    unfold risk_level_of
    rw [if_neg (show ¬ risk_score t x y z ≥ 3 by omega),
        if_neg (show ¬ risk_score t x y z ≥ 1 by omega)]

/-- C4 witness: the spec's own boundary example — spins 260, RTP 125,
bets 20000 — scores 2 + 2 + 1 = 5 under the default thresholds and is
classified high risk. -/
theorem c4_risk_score_spec_witness :
    risk_score defaultThresholds 260 125 20000 =
      spinsTermClaimed defaultThresholds 260 + rtpTermClaimed defaultThresholds 125 +
        betsTermClaimed defaultThresholds 20000 ∧
    3 ≤ risk_score defaultThresholds 260 125 20000 ∧
    (risk_level_of (risk_score defaultThresholds 260 125 20000)).1 = "🚨 高風險" :=
  ⟨(c4_risk_score_spec defaultThresholds 260 125 20000).1, by decide,
   (c4_risk_score_spec defaultThresholds 260 125 20000).2.1 (by decide)⟩

/-- C5 (amended): under sound sampling, every generated combo is itself a
sound sample — 2 or 3 distinct pool entries, each quantity within
[1, max] — and either its quantities sum to at most 12 or it is the
attempt-31 sample returned unchanged (the source accepts the 31st sample
as-is instead of clamping, see the counterexample). -/
theorem c5_generator_bounds (pool : List (String × Int)) (o : Nat → Combo)
    (h : ∀ n, SampleOk pool (o n)) :
    SampleOk pool (genCombo o) ∧
    (comboSum (genCombo o) ≤ 12 ∨ genCombo o = o 31) := by
  constructor
  · obtain ⟨n, hn⟩ := genLoop_mem o 31 1
    rw [show genCombo o = genLoop o 31 1 from rfl, hn]
    exact h n
  · exact genLoop_cap o 31 1 (by omega) (by omega)

/-- C5 witness: with the always-sound, under-cap oracle the generated
combo is sound and under the cap. -/
theorem c5_generator_bounds_witness :
    SampleOk DEFAULT_SIGNALS_POOL (genCombo okOracle) ∧
    (comboSum (genCombo okOracle) ≤ 12 ∨ genCombo okOracle = okOracle 31) :=
  c5_generator_bounds DEFAULT_SIGNALS_POOL okOracle
    (fun _ => show SampleOk DEFAULT_SIGNALS_POOL [("眼睛", 1), ("刀子", 1)] by decide)

/-- C5 counterexample: an oracle whose every raw sample is a sound
2-entry sample of the default pool but totals 14 exhausts the 30 retries
and the generator returns the sample unclamped with total 14 > 12,
so the claim's "the combo's quantities sum to at most 12 … failing that,
clamps the offending quantities down" is false on the code. -/
theorem c5_cap_counterexample :
    SampleOk DEFAULT_SIGNALS_POOL (overCapOracle 0) ∧
    genCombo overCapOracle = [("眼睛", 7), ("刀子", 7)] ∧
    ¬ comboSum (genCombo overCapOracle) ≤ 12 := by
  refine ⟨by decide, by decide, by decide⟩

/-- C6 (code evaluated at the failing input): a user with no Member row,
under quota, submitting non-duplicate numeric fields reaches the
not-approved branch where `member_data.get("status", "pending")` is
called on `None` and raises `AttributeError`; the blanket handler
swallows it, so no reply at all is sent (not the claimed "not yet
approved" reply), though indeed no scoring happens and nothing is
written. -/
theorem c6_no_member_row_crash :
    get_member stEmptyW "U1" = none ∧
    get_usage_today envW stEmptyW "U1" < limitOf stEmptyW "U1" ∧
    analysisFlow envW stEmptyW "U1" msgNoRow = (Outcome.attrError, stEmptyW) ∧
    render Outcome.attrError = none ∧
    handle_message_text "ADMIN" envW stEmptyW "U1" msgNoRow = (none, stEmptyW) := by
  refine ⟨rfl, by decide, by decide, rfl, by decide⟩

/-- C7 (amended): a user for whom the admin guard
`ADMIN_LINE_ID and user_id == ADMIN_LINE_ID` fails and who sends the
exact admin command text receives an explicit "you are not an admin"
denial — not the generic unrecognized-input reply — and the admin effect
is not performed (the state is unchanged); when the guard holds, the
same text saves every user's pending signals and clears the cache. -/
theorem c7_admin_command_gate (adminId : String) (env : Env) (st : AppState) (uid : String) :
    ((!(adminId == "") && uid == adminId) = false →
      handle_message_text adminId env st uid "管理員儲存訊號" =
        (some "❌ 你不是管理員，無法執行此操作。", st)) ∧
    ((!(adminId == "") && uid == adminId) = true →
      handle_message_text adminId env st uid "管理員儲存訊號" =
        (some ("管理員操作完成，已嘗試儲存 " ++ toString st.latestSignals.length ++
               " 位使用者的推薦訊號。"),
         { st with
             signalStats :=
               st.signalStats ++ (st.latestSignals.map (fun p => flattenCombos p.2)).flatten,
             latestSignals := [] })) := by
  constructor
  · intro h
    simp only [handle_message_text]
    rw [if_neg (by decide), if_neg (by decide), if_neg (by decide), if_neg (by decide),
        if_pos (by decide), if_neg (by simp [h])]
  · intro h
    simp only [handle_message_text]
    rw [if_neg (by decide), if_neg (by decide), if_neg (by decide), if_neg (by decide),
        if_pos (by decide), if_pos h]

/-- C7 witness: the configured admin id performs the admin-save effect. -/
theorem c7_admin_command_gate_witness :
    (!(("ADMIN" : String) == "") && ("ADMIN" : String) == "ADMIN") = true ∧
    handle_message_text "ADMIN" envW stSig "ADMIN" "管理員儲存訊號" =
      (some ("管理員操作完成，已嘗試儲存 " ++ toString stSig.latestSignals.length ++
             " 位使用者的推薦訊號。"),
       { stSig with
           signalStats :=
             stSig.signalStats ++ (stSig.latestSignals.map (fun p => flattenCombos p.2)).flatten,
           latestSignals := [] }) :=
  ⟨by decide, (c7_admin_command_gate "ADMIN" envW stSig "ADMIN").2 (by decide)⟩

/-- C7 counterexample: a non-admin sending the exact admin command text
gets the explicit "you are not an admin" denial, which differs from the
generic unrecognized-input reply the claim promises, revealing that the
string is a privileged command. -/
theorem c7_denial_counterexample :
    handle_message_text "ADMIN" envW stEmptyW "U1" "管理員儲存訊號" =
      (some "❌ 你不是管理員，無法執行此操作。", stEmptyW) ∧
    (some "❌ 你不是管理員，無法執行此操作。" : Option String) ≠
      some "請傳送房間資訊或使用下方快速選單進行操作。" := by
  refine ⟨by decide, by decide⟩

/-- C8 (amended): whenever the `SIGNALS_POOL` string is empty or yields
no well-formed `name:max` item, the loaded pool is the source's literal
10-entry fallback. -/
theorem c8_pool_fallback (envStr : String)
    (h : envStr = "" ∨ parsePoolItems envStr = []) :
    load_signals_pool envStr =
      [("眼睛", 7), ("刀子", 7), ("弓箭", 7), ("蛇", 7),
       ("紅寶石", 7), ("藍寶石", 7), ("黃寶石", 7), ("綠寶石", 7), ("紫寶石", 7),
       ("聖甲蟲", 3)] := by
  unfold load_signals_pool
  rcases h with h | h
  · rw [if_neg (by simp [h])]
    rfl
  · by_cases he : envStr ≠ ""
    · rw [if_pos he]
      simp only [h]
      rfl
    · rw [if_neg he]
      rfl

/-- C8 witness: a poolless string falls back to the 10-entry literal. -/
theorem c8_pool_fallback_witness :
    parsePoolItems "ab" = [] ∧
    load_signals_pool "ab" =
      [("眼睛", 7), ("刀子", 7), ("弓箭", 7), ("蛇", 7),
       ("紅寶石", 7), ("藍寶石", 7), ("黃寶石", 7), ("綠寶石", 7), ("紫寶石", 7),
       ("聖甲蟲", 3)] :=
  ⟨by decide, c8_pool_fallback "ab" (Or.inr (by decide))⟩

/-- C8 counterexample: the fallback pool of the source has 10 entries —
the four 倍數球 entries of the claim's 14-entry list are absent — so the
loaded pool differs from the claimed list. -/
theorem c8_pool_counterexample :
    load_signals_pool "" = DEFAULT_SIGNALS_POOL ∧
    DEFAULT_SIGNALS_POOL.length = 10 ∧
    specSignalPoolClaimed.length = 14 ∧
    load_signals_pool "" ≠ specSignalPoolClaimed := by
  refine ⟨rfl, rfl, rfl, by decide⟩

/-- C9 (amended): the legacy `get_member` of src/db.py returns the record
or the absent value for every backend response it receives — a `None`
response and an unexpectedly shaped response are logged and mapped to the
absent value — but a backend exception raised by the query itself
propagates to the caller, because the function has no try/except. -/
theorem c9_db_get_member_errors :
    Db.get_member Db.ExecResult.respNone = Db.PyOutcome.returns none ∧
    Db.get_member Db.ExecResult.respUnexpected = Db.PyOutcome.returns none ∧
    (∀ d, Db.get_member (Db.ExecResult.respWithData d) = Db.PyOutcome.returns d) ∧
    (∀ d, Db.get_member (Db.ExecResult.respDict d) = Db.PyOutcome.returns d) ∧
    Db.get_member Db.ExecResult.raised = Db.PyOutcome.raises ∧
    (∀ r, r ≠ Db.ExecResult.raised → ∃ v, Db.get_member r = Db.PyOutcome.returns v) := by
  refine ⟨rfl, rfl, fun d => rfl, fun d => rfl, rfl, ?_⟩
  intro r hr
  cases r with
  | raised => exact absurd rfl hr
  | respNone => exact ⟨none, rfl⟩
  | respWithData d => exact ⟨d, rfl⟩
  | respDict d => exact ⟨d, rfl⟩
  | respUnexpected => exact ⟨none, rfl⟩

/-- C9 witness: a non-raising backend response always yields a returned
value. -/
theorem c9_db_get_member_errors_witness :
    Db.ExecResult.respUnexpected ≠ Db.ExecResult.raised ∧
    ∃ v, Db.get_member Db.ExecResult.respUnexpected = Db.PyOutcome.returns v :=
  ⟨by decide, c9_db_get_member_errors.2.2.2.2.2 Db.ExecResult.respUnexpected (by decide)⟩

/-- C9 counterexample: when the backend query raises, the lookup raises
too instead of returning the absent value, so the claim's "swallows every
backend error" is false on src/db.py. -/
theorem c9_exception_counterexample :
    Db.get_member Db.ExecResult.raised = Db.PyOutcome.raises ∧
    Db.get_member Db.ExecResult.raised ≠ Db.PyOutcome.returns none := by
  refine ⟨rfl, by decide⟩

/-- C10 (implicit, confirmed): when the backend read inside
`get_usage_today` raises, the function returns 0, so the quota check
`used >= limit` cannot refuse (both limits are positive) and a
non-duplicate submission of an approved member proceeds to the full
analysis no matter how much usage the store actually records. -/
theorem c10_fail_open (env : Env) (st : AppState) (uid msg : String) (m : Member)
    (hfail : env.usageReadFails = true)
    (hprev : get_previous_reply st uid (env.hash msg) = none)
    (hm : get_member st uid = some m)
    (hs : m.status = "approved") :
    get_usage_today env st uid = 0 ∧
    ∃ r, (analysisFlow env st uid msg).1 = Outcome.analyzed r := by
  have hzero : get_usage_today env st uid = 0 := by
    unfold get_usage_today
    rw [hfail]
    rfl
  refine ⟨hzero, ?_⟩
  have happ : isApprovedB st uid = true := by
    simp [isApprovedB, hm, hs]
  have hlt : get_usage_today env st uid < limitOf st uid := by
    rw [hzero]
    unfold limitOf
    split <;> omega
  rw [analysisFlow_fresh env st uid msg hprev happ hlt]
  exact ⟨_, rfl⟩

/-- C10 witness: with 999 uses recorded today but a raising usage read,
the approved member's analysis still proceeds. -/
theorem c10_fail_open_witness :
    get_usage_today envFail stHeavy "U1" = 0 ∧
    ∃ r, (analysisFlow envFail stHeavy "U1" msgW).1 = Outcome.analyzed r :=
  c10_fail_open envFail stHeavy "U1" msgW
    { status := "approved", memberLevel := some "normal" }
    rfl (by decide) (by decide) rfl

end DongBot
